import Mathlib

/-
Verification of the streaming playback engine of somafm-cli
(src/audio.rs and src/utils/parsing.rs), shallowly embedded in Lean.

Bytes are modelled as `Nat`, byte vectors as `List Nat`; the shared
`Vec<u8>` buffer and its read cursor become a `ByteBuffer` record; the
fallible Rust functions return a `Res` value mirroring `Result`/`io::Result`.
-/

namespace SomaFM

/-- Result type mirroring Rust `Result<T, E>` with a string error payload. -/
inductive Res (α : Type) where
  | ok (val : α)
  | error (msg : String)
deriving DecidableEq, Repr

/-! ### Constants from src/audio.rs -/

/-- `MAX_BUFFER_SIZE` (src/audio.rs:577): 8 MB hard buffer limit. -/
def MAX_BUFFER_SIZE : Nat := 8 * 1024 * 1024

/-- `BACKPRESSURE_THRESHOLD` (src/audio.rs:578): backpressure starts at 6 MB. -/
def BACKPRESSURE_THRESHOLD : Nat := 6 * 1024 * 1024

/-- `CLEANUP_THRESHOLD` (src/audio.rs:579): compact once 2 MB have been read. -/
def CLEANUP_THRESHOLD : Nat := 2 * 1024 * 1024

/-- `MAX_RETRY_ATTEMPTS` (src/audio.rs:459). -/
def MAX_RETRY_ATTEMPTS : Nat := 5

/-- Capacity of the decoded-audio hand-off channel (src/audio.rs:694). -/
def AUDIO_CHANNEL_CAP : Nat := 16

/-! ### ByteBuffer: the shared network buffer plus read cursor

`StreamingSource` (src/audio.rs:19-33) shares a `Vec<u8>` (`buffer`) and a
read cursor (`pos`) between the network task and the decoder. -/

/-- The shared byte buffer with its read cursor. -/
structure ByteBuffer where
  data : List Nat
  pos : Nat
deriving DecidableEq, Repr

/-- Core of `impl Read for StreamingSource` (src/audio.rs:47-58), after both
locks are held: if `pos` is at or past the end, read 0 bytes; otherwise copy
`n = min maxLen (len - pos)` bytes starting at `pos` and advance `pos` by `n`.
Returns the bytes read and the new cursor. -/
def streamRead (buffer : List Nat) (pos : Nat) (maxLen : Nat) : List Nat × Nat :=
  if buffer.length ≤ pos then ([], pos)
  else
    let n := min maxLen (buffer.length - pos)
    ((buffer.drop pos).take n, pos + n)

/-- `impl Read for StreamingSource` (src/audio.rs:36-59) including the two lock
acquisitions: `try_lock` failure on the buffer yields a `WouldBlock` error,
a poisoned position lock yields an error; otherwise the core read runs. -/
def streamingSourceRead (bufferLockFree : Bool) (posLockOk : Bool)
    (buffer : List Nat) (pos : Nat) (maxLen : Nat) : Res (List Nat × Nat) :=
  if !bufferLockFree then Res.error ("buffer locked")
  else if !posLockOk then Res.error ("failed to lock position")
  else Res.ok (streamRead buffer pos maxLen)

/-- The cleanup branch of the network task (src/audio.rs:600-608): when
entered, all bytes before the read cursor are drained and the cursor reset
to 0 (guarded by `pos > 0` in the source). -/
def cleanupStep (b : ByteBuffer) : ByteBuffer :=
  if 0 < b.pos then ⟨b.data.drop b.pos, 0⟩ else b

/-- The emergency-eviction branch of the network task (src/audio.rs:609-618):
drop the oldest quarter (`drop_size = len / 4`) and shift the read cursor
down by the same amount, saturating at zero (`saturating_sub`). -/
def evictStep (b : ByteBuffer) : ByteBuffer :=
  ⟨b.data.drop (b.data.length / 4), b.pos - b.data.length / 4⟩

/-- The consolidated buffer-management loop of the network task
(src/audio.rs:593-628), with explicit fuel to make the recursion structural.
Per iteration (in source order): if `pos > CLEANUP_THRESHOLD`, compact; else
if `len > MAX_BUFFER_SIZE`, evict the oldest quarter; otherwise the loop is
done (the remaining backpressure branch at src/audio.rs:619-624 only sleeps —
it does not change the buffer state — so the buffer state is final there). -/
def bufferManageFuel : Nat → ByteBuffer → ByteBuffer
  | 0, b => b
  | fuel + 1, b =>
    if CLEANUP_THRESHOLD < b.pos then bufferManageFuel fuel (cleanupStep b)
    else if MAX_BUFFER_SIZE < b.data.length then bufferManageFuel fuel (evictStep b)
    else b

/-- The buffer-management loop, run with enough fuel to reach its exit
condition (each compaction or eviction strictly shrinks `len + pos`). -/
def bufferManage (b : ByteBuffer) : ByteBuffer :=
  bufferManageFuel (b.data.length + b.pos + 1) b

/-- The operations performed on the shared buffer: network appends
(src/audio.rs:631-633), decoder reads (src/audio.rs:36-59), the periodic
cleanup, the emergency eviction, and the full management loop. -/
inductive BufOp where
  | append (chunk : List Nat)
  | readAdvance (maxLen : Nat)
  | cleanup
  | evict
  | manage
deriving DecidableEq, Repr

/-- Apply one buffer operation. -/
def applyOp (b : ByteBuffer) : BufOp → ByteBuffer
  | BufOp.append chunk => ⟨b.data ++ chunk, b.pos⟩
  | BufOp.readAdvance maxLen => ⟨b.data, (streamRead b.data b.pos maxLen).2⟩
  | BufOp.cleanup => cleanupStep b
  | BufOp.evict => evictStep b
  | BufOp.manage => bufferManage b

/-! ### Player state machine (src/audio.rs:208-449) -/

/-- `PlaybackState` (src/audio.rs:220-227). -/
inductive PlaybackState where
  | stopped
  | playing
  | paused
  | connecting
  | error (msg : String)
deriving DecidableEq, Repr, BEq

/-- `true` exactly on `PlaybackState::Error(_)`. -/
def PlaybackState.isError : PlaybackState → Bool
  | PlaybackState.error _ => true
  | _ => false

/-- `PlayerEvent` (src/audio.rs:208-218). -/
inductive PlayerEvent where
  | connecting (url : String)
  | connected
  | stopped
  | paused
  | resumed
  | error (msg : String)
  | bufferProgress (bytes : Nat)
  | metadata (m : String)
deriving DecidableEq, Repr, BEq

/-- `PlayerState` (src/audio.rs:230-237). The `sink` and
`cancellation_token` fields hold external handles (`Option<Sink>`,
`Option<CancellationToken>`); only their presence matters to the control
logic, so they are modelled as Booleans (`true` = `Some`). -/
structure PlayerState where
  current_url : Option String
  playback_state : PlaybackState
  sink : Bool
  cancellation_token : Bool
  auto_reconnect : Bool
  reconnect_attempts : Nat
deriving DecidableEq, Repr

/-- `PlayerState::new` (src/audio.rs:253-262). -/
def PlayerState.new : PlayerState :=
  ⟨none, PlaybackState.stopped, false, false, true, 0⟩

/-- `SimpleAudioPlayer::set_auto_reconnect` (src/audio.rs:324-328): the flag
is set only behind `if let Ok(..) = self.state.lock()`; on lock failure the
call silently does nothing. `lockOk` models whether the lock is acquired. -/
def set_auto_reconnect (lockOk : Bool) (enabled : Bool) (s : PlayerState) : PlayerState :=
  if lockOk then { s with auto_reconnect := enabled } else s

/-- `SimpleAudioPlayer::pause` (src/audio.rs:388-398): lock failure is mapped
to an error via `map_err(..)?`; otherwise, if a sink is present, pause it and
set the state to `Paused`, else do nothing. -/
def pause (lockOk : Bool) (s : PlayerState) : Res PlayerState :=
  if lockOk then
    if s.sink then Res.ok { s with playback_state := PlaybackState.paused }
    else Res.ok s
  else Res.error ("Failed to acquire state lock")

/-- `SimpleAudioPlayer::resume` (src/audio.rs:400-410): symmetric to `pause`,
setting `Playing` when a sink is present. -/
def resume (lockOk : Bool) (s : PlayerState) : Res PlayerState :=
  if lockOk then
    if s.sink then Res.ok { s with playback_state := PlaybackState.playing }
    else Res.ok s
  else Res.error ("Failed to acquire state lock")

/-- `SimpleAudioPlayer::stop` (src/audio.rs:412-433): lock failure is an
error; otherwise the cancellation token is taken and cancelled, the sink is
taken and stopped, and the bookkeeping is reset (`current_url = None`,
state `Stopped`, `reconnect_attempts = 0`). `auto_reconnect` is untouched. -/
def stop (lockOk : Bool) (s : PlayerState) : Res PlayerState :=
  if lockOk then
    Res.ok { s with
      current_url := none
      playback_state := PlaybackState.stopped
      sink := false
      cancellation_token := false
      reconnect_attempts := 0 }
  else Res.error ("Failed to acquire state lock")

/-- `SimpleAudioPlayer::play` (src/audio.rs:344-386): first `self.stop()?`,
then (under the lock, which errors out on failure) record the URL, enter
`Connecting`, install a fresh cancellation token and zero the attempt
counter; the streaming task is then spawned. -/
def play (lockOk : Bool) (url : String) (s : PlayerState) : Res PlayerState :=
  match stop lockOk s with
  | Res.error e => Res.error e
  | Res.ok s1 =>
    if lockOk then
      Res.ok { s1 with
        current_url := some url
        playback_state := PlaybackState.connecting
        cancellation_token := true
        reconnect_attempts := 0 }
    else Res.error ("Failed to acquire state lock")

/-! ### The retry controller `stream_with_retry` (src/audio.rs:452-531) -/

/-- Outcome of one `fetch_and_play_stream` attempt. -/
inductive AttemptResult where
  | success
  | failure (msg : String)
deriving DecidableEq, Repr

/-- The part of the shared player state that `stream_with_retry` itself
reads and writes (the attempt's own updates — sink installation, the early
transition to `Playing` — live in `fetch_and_play_stream` and are modelled
by `fetch_and_play_stream_trace` below). -/
structure RetryState where
  playback_state : PlaybackState
  reconnect_attempts : Nat
deriving DecidableEq, Repr

/-- `stream_with_retry` (src/audio.rs:452-531). Each element of `env` is one
loop iteration: the `auto_reconnect` value read under the state lock at the
top of the loop, paired with the outcome the attempt would have in that
iteration. Mirroring the source: the loop breaks when `auto_reconnect` is
off or the counter has hit `MAX_RETRY_ATTEMPTS` (without touching the
state); a successful attempt ends the loop; a failed attempt increments the
counter, and only when the incremented counter reaches the ceiling is the
state set to `Error(..)` — otherwise an error *event* is emitted and the
loop retries after a fixed 2000 ms delay. Cancellation (a further silent
break) is not exercised by the claims and is omitted. -/
def stream_with_retry : List (Bool × AttemptResult) → RetryState → RetryState
  | [], st => st
  | (ar, outcome) :: rest, st =>
    if ar ∧ st.reconnect_attempts < MAX_RETRY_ATTEMPTS then
      match outcome with
      | AttemptResult.success => st
      | AttemptResult.failure e =>
        if MAX_RETRY_ATTEMPTS ≤ st.reconnect_attempts + 1 then
          ⟨PlaybackState.error (("Max retry attempts reached: ") ++ e),
           st.reconnect_attempts + 1⟩
        else
          stream_with_retry rest ⟨st.playback_state, st.reconnect_attempts + 1⟩
    else st

/-! ### The decoded-audio hand-off channel (src/audio.rs:694, 841-853) -/

/-- `try_send` of the bounded tokio mpsc channel: enqueue when strictly
below capacity, fail (the value stays with the caller) when full. Batches
are identified by a `Nat` tag; only delivery, not sample content, is at
stake here. -/
def trySend (chan : List Nat) (cap : Nat) (batch : Nat) : Bool × List Nat :=
  if chan.length < cap then (true, chan ++ [batch]) else (false, chan)

/-- Effect on the channel of one successfully decoded packet in
`decode_blocking_task` (src/audio.rs:841-853): the batch is pushed with
`audio_tx.try_send(source)`; when that fails the task only logs, sleeps
5 ms and falls through to the next packet — the failed batch is dropped. -/
def deliverDecodedBatch (chan : List Nat) (batch : Nat) : List Nat :=
  (trySend chan AUDIO_CHANNEL_CAP batch).2

/-! ### Program-order trace of `fetch_and_play_stream` (src/audio.rs:534-737) -/

/-- The successive actions of one fetch/decode attempt. -/
inductive SessionStep where
  | createSink
  | setState (s : PlaybackState)
  | sendEvent (e : PlayerEvent)
  | httpGet
  | spawnNetworkTask
  | waitInitialData
  | probeFormat
  | createDecoder
  | spawnDecodeTask
  | decodeFrame
  | appendToSink
deriving DecidableEq, Repr, BEq

/-- `fetch_and_play_stream` (src/audio.rs:534-737) in program order, happy
path: create the sink (line 544), set the state to `Playing` (line 550),
send `Connected` (line 553), issue the HTTP GET (line 560), spawn the
network-fill task (line 574), wait for 64 KB of initial data (line 654),
probe the container (line 672), build the decoder (line 685), spawn the
blocking decode task (line 699) — only there is the first PCM frame decoded
— and append decoded audio to the sink (line 713). -/
def fetch_and_play_stream_trace : List SessionStep :=
  [SessionStep.createSink,
   SessionStep.setState PlaybackState.playing,
   SessionStep.sendEvent PlayerEvent.connected,
   SessionStep.httpGet,
   SessionStep.spawnNetworkTask,
   SessionStep.waitInitialData,
   SessionStep.probeFormat,
   SessionStep.createDecoder,
   SessionStep.spawnDecodeTask,
   SessionStep.decodeFrame,
   SessionStep.appendToSink]

/-! ### URL resolution and playlist parsing (src/audio.rs:902-950)

Strings are handled at the character level so that every operation mirrors
the Rust semantics (`split('=')`, `lines()`, `trim`, `starts_with`,
`ends_with`, `contains`) by structural recursion. -/

/-- Rust `str::split(sep)`: split at every separator, keeping empty
segments (so the result always has one more segment than separators). -/
def splitChar (sep : Char) : List Char → List (List Char)
  | [] => [[]]
  | c :: rest =>
    if c = sep then [] :: splitChar sep rest
    else
      match splitChar sep rest with
      | [] => [[c]]
      | l :: ls => (c :: l) :: ls

/-- ASCII whitespace, the fragment of Rust `char::is_whitespace` relevant
to playlist bodies. -/
def isWsChar (c : Char) : Bool :=
  c = ' ' || c = '\t' || c = '\n' || c = '\r'

/-- Rust `str::trim`: strip leading and trailing whitespace. -/
def trimChars (cs : List Char) : List Char :=
  ((cs.dropWhile isWsChar).reverse.dropWhile isWsChar).reverse

/-- Rust `str::starts_with(pre)`. -/
def startsWithChars (s pre : List Char) : Bool :=
  pre.isPrefixOf s

/-- Rust `str::ends_with(suf)`. -/
def endsWithChars (s suf : List Char) : Bool :=
  suf.isSuffixOf s

/-- Rust `str::contains(sub)`: some tail of `s` begins with `sub`. -/
def containsSubstring (s sub : List Char) : Bool :=
  s.tails.any (fun t => sub.isPrefixOf t)

/-- Rust `str::lines()`: split at `\n`, drop the final empty segment left
by a trailing newline, and strip one trailing `\r` from each line. -/
def rustLines (cs : List Char) : List (List Char) :=
  let parts := splitChar '\n' cs
  let parts := if parts.getLast? = some [] then parts.dropLast else parts
  parts.map (fun l => if l.getLast? = some '\r' then l.dropLast else l)

/-- The `.pls` loop of `parse_playlist` (src/audio.rs:928-936): the first
line that starts with `File` and contains `=` yields
`line.split('=').nth(1)` (the segment between the first and the second
`=`), trimmed. -/
def plsFirstFile (ls : List (List Char)) : Option (List Char) :=
  ls.findSome? (fun line =>
    if startsWithChars line (("File").data) && line.contains '=' then
      ((splitChar '=' line).get? 1).map trimChars
    else none)

/-- The `.m3u`/`.m3u8` loop of `parse_playlist` (src/audio.rs:939-947): the
first trimmed line that is non-empty and not a `#` comment. -/
def m3uFirstEntry (ls : List (List Char)) : Option (List Char) :=
  ls.findSome? (fun line =>
    let t := trimChars line
    if (!t.isEmpty) && (!startsWithChars t (['#'])) then some t else none)

/-- `parse_playlist` (src/audio.rs:917-950), with the fetched playlist body
supplied as `content` (the HTTP fetch itself is external I/O): try the
`.pls` loop when the URL ends in `.pls`, then the `.m3u` loop when it ends
in `.m3u`/`.m3u8`, else fail. -/
def parse_playlist (url content : List Char) : Res (List Char) :=
  match (if endsWithChars url ((".pls").data)
         then plsFirstFile (rustLines content) else none) with
  | some u => Res.ok u
  | none =>
    match (if endsWithChars url ((".m3u").data) || endsWithChars url ((".m3u8").data)
           then m3uFirstEntry (rustLines content) else none) with
    | some u => Res.ok u
    | none => Res.error ("No stream URL found in playlist")

/-- `resolve_stream_url` (src/audio.rs:902-915): URLs ending in `.mp3` or
`.aac` or containing `/live` are used as-is; playlist URLs are fetched and
parsed; anything else is returned unchanged. -/
def resolve_stream_url (url content : List Char) : Res (List Char) :=
  if endsWithChars url ((".mp3").data) || endsWithChars url ((".aac").data)
      || containsSubstring url (("/live").data) then
    Res.ok url
  else if endsWithChars url ((".pls").data) || endsWithChars url ((".m3u").data)
      || endsWithChars url ((".m3u8").data) then
    parse_playlist url content
  else
    Res.ok url

/-- The URL-resolution fallback in `stream_with_retry` (src/audio.rs:480-486):
a resolution failure is logged and the original URL is used unresolved. -/
def resolve_with_fallback (url content : List Char) : List Char :=
  match resolve_stream_url url content with
  | Res.ok u => u
  | Res.error _ => url

/-- Everything after the first `=` of a line (the line unchanged in
content if it has no `=`, but then it is never used below). -/
def afterFirstEq : List Char → List Char
  | [] => []
  | c :: rest => if c = '=' then rest else afterFirstEq rest

/-- Follows the spec's words for claim C9, to be compared with the source's
`plsFirstFile`: the URL carried by the first `File` line is everything
after the *first* `=` of the first line that starts with `File` and
contains `=` (trimmed) — the whole URL, even when the URL itself contains
`=`. -/
def specFirstFileUrl (ls : List (List Char)) : Option (List Char) :=
  ls.findSome? (fun line =>
    if startsWithChars line (("File").data) && line.contains '=' then
      some (trimChars (afterFirstEq line))
    else none)

/-! ## Helper lemmas -/

theorem streamRead_fst (buffer : List Nat) (pos maxLen : Nat) :
    (streamRead buffer pos maxLen).1 = (buffer.drop pos).take maxLen := by
  unfold streamRead
  by_cases h : buffer.length ≤ pos
  · simp [h, List.drop_eq_nil_of_le h]
  · simp only [if_neg h]
    show (buffer.drop pos).take (min maxLen (buffer.length - pos))
      = (buffer.drop pos).take maxLen
    rw [← List.length_drop, ← List.take_take, List.take_length]

theorem streamRead_snd (buffer : List Nat) (pos maxLen : Nat) :
    (streamRead buffer pos maxLen).2 = pos + min maxLen (buffer.length - pos) := by
  unfold streamRead
  by_cases h : buffer.length ≤ pos
  · simp [h, Nat.sub_eq_zero_of_le h]
  · simp [h]

theorem cleanupStep_inv (b : ByteBuffer) :
    (cleanupStep b).pos ≤ (cleanupStep b).data.length := by
  unfold cleanupStep
  by_cases h : 0 < b.pos
  · simp [h]
  · simp [h]
    omega

theorem evictStep_inv (b : ByteBuffer) (h : b.pos ≤ b.data.length) :
    (evictStep b).pos ≤ (evictStep b).data.length := by
  unfold evictStep
  simp only [List.length_drop]
  omega

theorem bufferManageFuel_succ (fuel : Nat) (b : ByteBuffer) :
    bufferManageFuel (fuel + 1) b =
      if CLEANUP_THRESHOLD < b.pos then bufferManageFuel fuel (cleanupStep b)
      else if MAX_BUFFER_SIZE < b.data.length then bufferManageFuel fuel (evictStep b)
      else b := rfl

theorem bufferManageFuel_inv (fuel : Nat) :
    ∀ b : ByteBuffer, b.pos ≤ b.data.length →
      (bufferManageFuel fuel b).pos ≤ (bufferManageFuel fuel b).data.length := by
  induction fuel with
  | zero => intro b h; simpa [bufferManageFuel] using h
  | succ n ih =>
    intro b h
    rw [bufferManageFuel_succ]
    by_cases h1 : CLEANUP_THRESHOLD < b.pos
    · simp only [if_pos h1]
      exact ih _ (cleanupStep_inv b)
    · by_cases h2 : MAX_BUFFER_SIZE < b.data.length
      · simp only [if_neg h1, if_pos h2]
        exact ih _ (evictStep_inv b h)
      · simp only [if_neg h1, if_neg h2]
        exact h

theorem cleanup_measure (b : ByteBuffer) (h : CLEANUP_THRESHOLD < b.pos) :
    (cleanupStep b).data.length + (cleanupStep b).pos < b.data.length + b.pos := by
  have h0 : 0 < b.pos := by
    have : 0 < CLEANUP_THRESHOLD := by decide
    omega
  unfold cleanupStep
  simp only [if_pos h0, List.length_drop]
  omega

theorem evict_measure (b : ByteBuffer) (h : MAX_BUFFER_SIZE < b.data.length) :
    (evictStep b).data.length + (evictStep b).pos < b.data.length + b.pos := by
  have h4 : 1 ≤ b.data.length / 4 := by
    have : MAX_BUFFER_SIZE = 8388608 := by decide
    omega
  unfold evictStep
  simp only [List.length_drop]
  omega

theorem bufferManageFuel_exit (fuel : Nat) :
    ∀ b : ByteBuffer, b.data.length + b.pos < fuel →
      (bufferManageFuel fuel b).pos ≤ CLEANUP_THRESHOLD ∧
      (bufferManageFuel fuel b).data.length ≤ MAX_BUFFER_SIZE := by
  induction fuel with
  | zero => intro b h; omega
  | succ n ih =>
    intro b h
    rw [bufferManageFuel_succ]
    by_cases h1 : CLEANUP_THRESHOLD < b.pos
    · simp only [if_pos h1]
      refine ih _ ?_
      have := cleanup_measure b h1
      omega
    · by_cases h2 : MAX_BUFFER_SIZE < b.data.length
      · simp only [if_neg h1, if_pos h2]
        refine ih _ ?_
        have := evict_measure b h2
        omega
      · simp only [if_neg h1, if_neg h2]
        exact ⟨Nat.le_of_not_lt h1, Nat.le_of_not_lt h2⟩

theorem bufferManage_le (b : ByteBuffer) :
    (bufferManage b).data.length ≤ MAX_BUFFER_SIZE :=
  (bufferManageFuel_exit (b.data.length + b.pos + 1) b (Nat.lt_succ_self _)).2

theorem evictStep_replicate (n : Nat) :
    evictStep ⟨List.replicate n (0 : Nat), 0⟩ = ⟨List.replicate (n - n / 4) 0, 0⟩ := by
  unfold evictStep
  simp [List.drop_replicate]

theorem cleanupStep_replicate (n p : Nat) (hp : 0 < p) :
    cleanupStep ⟨List.replicate n (0 : Nat), p⟩ = ⟨List.replicate (n - p) 0, 0⟩ := by
  unfold cleanupStep
  simp [hp, List.drop_replicate]

theorem bufferManageFuel_fix (fuel : Nat) (b : ByteBuffer)
    (h1 : ¬ CLEANUP_THRESHOLD < b.pos) (h2 : ¬ MAX_BUFFER_SIZE < b.data.length) :
    bufferManageFuel fuel b = b := by
  cases fuel with
  | zero => rfl
  | succ n => rw [bufferManageFuel_succ, if_neg h1, if_neg h2]

theorem manage_replicate_evict (n : Nat) (h1 : MAX_BUFFER_SIZE < n)
    (h2 : ¬ MAX_BUFFER_SIZE < n - n / 4) :
    bufferManage ⟨List.replicate n (0 : Nat), 0⟩ = ⟨List.replicate (n - n / 4) 0, 0⟩ := by
  unfold bufferManage
  rw [show ((⟨List.replicate n (0 : Nat), 0⟩ : ByteBuffer).data.length
        + (⟨List.replicate n (0 : Nat), 0⟩ : ByteBuffer).pos + 1) = n + 1 from by simp]
  rw [bufferManageFuel_succ]
  rw [if_neg (Nat.not_lt_zero CLEANUP_THRESHOLD)]
  rw [if_pos (show MAX_BUFFER_SIZE
        < (⟨List.replicate n (0 : Nat), 0⟩ : ByteBuffer).data.length from by simpa using h1)]
  rw [evictStep_replicate]
  exact bufferManageFuel_fix n _ (Nat.not_lt_zero CLEANUP_THRESHOLD) (by simpa using h2)

theorem manage_replicate_cleanup (n p : Nat) (hp : CLEANUP_THRESHOLD < p)
    (h2 : ¬ MAX_BUFFER_SIZE < n - p) :
    bufferManage ⟨List.replicate n (0 : Nat), p⟩ = ⟨List.replicate (n - p) 0, 0⟩ := by
  have hp0 : 0 < p := by omega
  unfold bufferManage
  rw [show ((⟨List.replicate n (0 : Nat), p⟩ : ByteBuffer).data.length
        + (⟨List.replicate n (0 : Nat), p⟩ : ByteBuffer).pos + 1) = (n + p) + 1 from by simp]
  rw [bufferManageFuel_succ]
  rw [if_pos (show CLEANUP_THRESHOLD
        < (⟨List.replicate n (0 : Nat), p⟩ : ByteBuffer).pos from hp)]
  rw [cleanupStep_replicate n p hp0]
  exact bufferManageFuel_fix (n + p) _ (Nat.not_lt_zero CLEANUP_THRESHOLD) (by simpa using h2)

theorem suffix_eq_of_length {l s1 s2 : List Char} (h1 : s1 <:+ l) (h2 : s2 <:+ l)
    (h : s1.length = s2.length) : s1 = s2 := by
  obtain ⟨t1, ht1⟩ := h1
  obtain ⟨t2, ht2⟩ := h2
  have e : t1 ++ s1 = t2 ++ s2 := ht1.trans ht2.symm
  have hl : t1.length = t2.length := by
    have hee := congrArg List.length e
    simp only [List.length_append] at hee
    omega
  exact (List.append_inj e hl).2

theorem pls_not_m3u {url : List Char} (h : endsWithChars url ((".pls").data) = true) :
    endsWithChars url ((".m3u").data) = false ∧
    endsWithChars url ((".m3u8").data) = false := by
  have hp : (".pls").data <:+ url := by
    have := h
    unfold endsWithChars at this
    exact List.isSuffixOf_iff_suffix.mp this
  constructor
  · cases hval : endsWithChars url ((".m3u").data) with
    | false => rfl
    | true =>
      exfalso
      have hm : (".m3u").data <:+ url := by
        unfold endsWithChars at hval
        exact List.isSuffixOf_iff_suffix.mp hval
      exact absurd (suffix_eq_of_length hm hp (by decide)) (by decide)
  · cases hval : endsWithChars url ((".m3u8").data) with
    | false => rfl
    | true =>
      exfalso
      have hm : (".m3u8").data <:+ url := by
        unfold endsWithChars at hval
        exact List.isSuffixOf_iff_suffix.mp hval
      have hm4 : (("m3u8")).data <:+ (".m3u8").data := by decide
      exact absurd (suffix_eq_of_length (hm4.trans hm) hp (by decide)) (by decide)

/-! ## Claim theorems -/

/-- C6: the byte-source read with locks acquired returns up to `maxLen`
unread bytes starting at the read cursor, advances the cursor by exactly the
number of bytes returned, never fails, and when no unread data is available
it returns a successful zero-length read, not an error. -/
theorem streaming_read_spec (buffer : List Nat) (pos maxLen : Nat) :
    streamingSourceRead true true buffer pos maxLen =
      Res.ok ((buffer.drop pos).take maxLen,
              pos + ((buffer.drop pos).take maxLen).length) ∧
    ((buffer.drop pos).take maxLen).length ≤ maxLen ∧
    (buffer.length ≤ pos →
      streamingSourceRead true true buffer pos maxLen = Res.ok ([], pos)) := by
  have hcore : streamRead buffer pos maxLen =
      ((buffer.drop pos).take maxLen,
       pos + ((buffer.drop pos).take maxLen).length) := by
    have hsplit : streamRead buffer pos maxLen =
        ((streamRead buffer pos maxLen).1, (streamRead buffer pos maxLen).2) := rfl
    rw [hsplit, streamRead_fst, streamRead_snd]
    congr 1
    simp [List.length_take, List.length_drop]
  refine ⟨?_, ?_, ?_⟩
  · unfold streamingSourceRead
    simp [hcore]
  · simp only [List.length_take]
    exact min_le_left _ _
  · intro h
    unfold streamingSourceRead
    simp only [Bool.not_true, Bool.false_eq_true, if_false]
    unfold streamRead
    simp [h]

/-- C6 witness: reading at the end of a concrete buffer succeeds with zero
bytes. -/
theorem streaming_read_spec_witness :
    ([10, 20, 30] : List Nat).length ≤ 3 ∧
    streamingSourceRead true true [10, 20, 30] 3 5 = Res.ok ([], 3) :=
  ⟨by decide, (streaming_read_spec [10, 20, 30] 3 5).2.2 (by decide)⟩

/-- C7: for every sequence of buffer operations (appends, reads, cleanup,
eviction and the management loop), the invariant `read_cursor ≤ length` of
the shared buffer is preserved (`0 ≤ read_cursor` holds trivially in `Nat`);
as the operation list is arbitrary, the invariant holds after every
operation of any run. -/
theorem buffer_cursor_invariant (ops : List BufOp) (b : ByteBuffer)
    (h : b.pos ≤ b.data.length) :
    (ops.foldl applyOp b).pos ≤ (ops.foldl applyOp b).data.length := by
  induction ops generalizing b with
  | nil => simpa using h
  | cons op rest ih =>
    simp only [List.foldl_cons]
    apply ih
    cases op with
    | append chunk =>
      simp only [applyOp, List.length_append]
      omega
    | readAdvance maxLen =>
      simp only [applyOp]
      rw [streamRead_snd]
      omega
    | cleanup => exact cleanupStep_inv b
    | evict => exact evictStep_inv b h
    | manage => exact bufferManageFuel_inv _ b h

/-- C7 witness: the invariant holds along a concrete operation sequence from
the empty buffer. -/
theorem buffer_cursor_invariant_witness :
    (⟨[], 0⟩ : ByteBuffer).pos ≤ (⟨[], 0⟩ : ByteBuffer).data.length ∧
    ([BufOp.append [1, 2, 3], BufOp.readAdvance 2, BufOp.cleanup, BufOp.evict,
      BufOp.manage].foldl applyOp ⟨[], 0⟩).pos ≤
      ([BufOp.append [1, 2, 3], BufOp.readAdvance 2, BufOp.cleanup, BufOp.evict,
        BufOp.manage].foldl applyOp ⟨[], 0⟩).data.length :=
  ⟨by decide, buffer_cursor_invariant _ _ (by decide)⟩

/-- C8: the compaction step drops exactly the bytes before the read cursor,
resets the cursor to zero, and preserves every previously-unread byte in
order: a read after compaction returns the same bytes a read before
compaction would have. -/
theorem compaction_preserves_unread (data : List Nat) (pos maxLen : Nat) :
    (cleanupStep ⟨data, pos⟩).pos = 0 ∧
    (cleanupStep ⟨data, pos⟩).data = data.drop pos ∧
    (streamRead (cleanupStep ⟨data, pos⟩).data (cleanupStep ⟨data, pos⟩).pos maxLen).1
      = (streamRead data pos maxLen).1 := by
  have hc : cleanupStep ⟨data, pos⟩ = ⟨data.drop pos, 0⟩ := by
    unfold cleanupStep
    by_cases h : 0 < pos
    · simp [h]
    · have h0 : pos = 0 := by omega
      subst h0
      simp
  rw [hc]
  refine ⟨rfl, rfl, ?_⟩
  rw [streamRead_fst, streamRead_fst]
  simp

/-- C4 counterexample. First state: length 11184810 exceeds
`MAX_BUFFER_SIZE`, cursor 0 — the management loop evicts one quarter and
stops at length exactly `MAX_BUFFER_SIZE`, which is not *strictly less*.
Second state: length `MAX_BUFFER_SIZE + 1` with cursor above
`CLEANUP_THRESHOLD` — the step performed is the compaction, not a
quarter-eviction (the final length 6291456 differs from the
`len - len / 4 = 6291457` a quarter-eviction would leave). -/
theorem buffer_eviction_counterexample :
    MAX_BUFFER_SIZE < (⟨List.replicate 11184810 0, 0⟩ : ByteBuffer).data.length ∧
    (bufferManage ⟨List.replicate 11184810 0, 0⟩).data.length = MAX_BUFFER_SIZE ∧
    ¬ (bufferManage ⟨List.replicate 11184810 0, 0⟩).data.length < MAX_BUFFER_SIZE ∧
    MAX_BUFFER_SIZE < (⟨List.replicate 8388609 0, 2097153⟩ : ByteBuffer).data.length ∧
    bufferManage ⟨List.replicate 8388609 0, 2097153⟩ = ⟨List.replicate 6291456 0, 0⟩ ∧
    (List.replicate 6291456 (0 : Nat)).length ≠ 8388609 - 8388609 / 4 := by
  have e1 : bufferManage ⟨List.replicate 11184810 (0 : Nat), 0⟩
      = ⟨List.replicate 8388608 0, 0⟩ := by
    have h := manage_replicate_evict 11184810 (by decide) (by decide)
    rw [show (11184810 - 11184810 / 4 : Nat) = 8388608 from by norm_num] at h
    exact h
  have e2 : bufferManage ⟨List.replicate 8388609 (0 : Nat), 2097153⟩
      = ⟨List.replicate 6291456 0, 0⟩ := by
    have h := manage_replicate_cleanup 8388609 2097153 (by decide) (by decide)
    rw [show (8388609 - 2097153 : Nat) = 6291456 from by norm_num] at h
    exact h
  refine ⟨?_, ?_, ?_, ?_, e2, ?_⟩
  · rw [show (⟨List.replicate 11184810 (0 : Nat), 0⟩ : ByteBuffer).data
        = List.replicate 11184810 (0 : Nat) from rfl, List.length_replicate]
    decide
  · rw [e1]
    rw [show (⟨List.replicate 8388608 (0 : Nat), 0⟩ : ByteBuffer).data
        = List.replicate 8388608 (0 : Nat) from rfl, List.length_replicate]
    decide
  · rw [e1]
    rw [show (⟨List.replicate 8388608 (0 : Nat), 0⟩ : ByteBuffer).data
        = List.replicate 8388608 (0 : Nat) from rfl, List.length_replicate]
    decide
  · rw [show (⟨List.replicate 8388609 (0 : Nat), 2097153⟩ : ByteBuffer).data
        = List.replicate 8388609 (0 : Nat) from rfl, List.length_replicate]
    decide
  · rw [List.length_replicate]
    decide

/-- C4 amended: for every buffer whose length exceeds `MAX_BUFFER_SIZE` and
whose read cursor is not above `CLEANUP_THRESHOLD` (otherwise the compaction
branch runs first), the management loop's first action is the eviction of
the oldest quarter — the cursor is shifted down by the evicted amount,
saturating at zero — and the loop ends with length at most (not strictly
below) `MAX_BUFFER_SIZE`. -/
theorem buffer_eviction_amended (b : ByteBuffer)
    (hlen : MAX_BUFFER_SIZE < b.data.length) (hpos : b.pos ≤ CLEANUP_THRESHOLD) :
    bufferManage b = bufferManageFuel (b.data.length + b.pos) (evictStep b) ∧
    (evictStep b).data = b.data.drop (b.data.length / 4) ∧
    (evictStep b).pos = b.pos - b.data.length / 4 ∧
    (bufferManage b).data.length ≤ MAX_BUFFER_SIZE := by
  refine ⟨?_, rfl, rfl, bufferManage_le b⟩
  unfold bufferManage
  rw [bufferManageFuel_succ]
  rw [if_neg (by omega), if_pos hlen]

/-- C4 witness: a concrete oversize buffer is brought back to at most
`MAX_BUFFER_SIZE` by the management loop. -/
theorem buffer_eviction_amended_witness :
    MAX_BUFFER_SIZE < (⟨List.replicate 8388612 0, 0⟩ : ByteBuffer).data.length ∧
    (bufferManage ⟨List.replicate 8388612 0, 0⟩).data.length ≤ MAX_BUFFER_SIZE := by
  have hlen : MAX_BUFFER_SIZE
      < (⟨List.replicate 8388612 0, 0⟩ : ByteBuffer).data.length := by
    rw [show (⟨List.replicate 8388612 (0 : Nat), 0⟩ : ByteBuffer).data
        = List.replicate 8388612 (0 : Nat) from rfl, List.length_replicate]
    decide
  exact ⟨hlen,
    (buffer_eviction_amended ⟨List.replicate 8388612 0, 0⟩ hlen (by decide)).2.2.2⟩

theorem stream_with_retry_cons (ar : Bool) (outcome : AttemptResult)
    (rest : List (Bool × AttemptResult)) (st : RetryState) :
    stream_with_retry ((ar, outcome) :: rest) st =
      if ar ∧ st.reconnect_attempts < MAX_RETRY_ATTEMPTS then
        match outcome with
        | AttemptResult.success => st
        | AttemptResult.failure e =>
          if MAX_RETRY_ATTEMPTS ≤ st.reconnect_attempts + 1 then
            ⟨PlaybackState.error (("Max retry attempts reached: ") ++ e),
             st.reconnect_attempts + 1⟩
          else
            stream_with_retry rest ⟨st.playback_state, st.reconnect_attempts + 1⟩
      else st := rfl

/-- C1 counterexample: with the 16-slot channel full, the freshly decoded
batch (tag 99) is not delivered — the channel is unchanged and the batch is
dropped, contradicting "the batch is still delivered (never discarded)". -/
theorem decode_try_send_drops_when_full :
    deliverDecodedBatch (List.range 16) 99 = List.range 16 ∧
    ¬ (99 ∈ deliverDecodedBatch (List.range 16) 99) := by decide

/-- C1 amended: a successfully decoded PCM batch is pushed to the hand-off
channel only when the channel is below capacity; when the channel is full
the batch is dropped (the decoder merely sleeps 5 ms before continuing with
the next packet), so the channel is left unchanged. -/
theorem decode_push_amended (chan : List Nat) (batch : Nat) :
    (chan.length < AUDIO_CHANNEL_CAP →
      deliverDecodedBatch chan batch = chan ++ [batch]) ∧
    (AUDIO_CHANNEL_CAP ≤ chan.length →
      deliverDecodedBatch chan batch = chan) := by
  unfold deliverDecodedBatch trySend
  constructor
  · intro h
    simp [h]
  · intro h
    simp [Nat.not_lt.mpr h]

/-- C1 witness: a batch sent into a channel with room is delivered. -/
theorem decode_push_amended_witness :
    ([] : List Nat).length < AUDIO_CHANNEL_CAP ∧
    deliverDecodedBatch [] 7 = [] ++ [7] :=
  ⟨by decide, (decode_push_amended [] 7).1 (by decide)⟩

/-- C2 counterexample: in the program-order trace of
`fetch_and_play_stream`, the transition to `Playing` is the step at index 1
and no `decodeFrame` step precedes it — the state is `Playing` before any
PCM frame has been produced. -/
theorem playing_before_first_frame :
    fetch_and_play_stream_trace.get? 1
      = some (SessionStep.setState PlaybackState.playing) ∧
    (fetch_and_play_stream_trace.take 1).contains SessionStep.decodeFrame = false := by
  decide

/-- C2 amended: the transition to `Playing` happens at the start of each
fetch attempt, immediately after the sink is created — strictly *before*
(index 1 against index 9) the first decoded frame, not after it. -/
theorem playing_set_at_attempt_start :
    List.findIdx? (fun s => s == SessionStep.setState PlaybackState.playing)
      fetch_and_play_stream_trace = some 1 ∧
    List.findIdx? (fun s => s == SessionStep.decodeFrame)
      fetch_and_play_stream_trace = some 9 ∧
    (1 : Nat) < 9 := by decide

/-- C3 counterexample: the first attempt fails with `auto_reconnect` on and
the counter below the ceiling, but `auto_reconnect` reads `false` at the
next loop top: the controller stops with the counter at 1 and the state
still `Connecting` — it never transitions to `Error`, contradicting
"otherwise ... the playback state transitions to Error". -/
theorem retry_no_error_when_disabled :
    stream_with_retry
        [(true, AttemptResult.failure ("boom")), (false, AttemptResult.success)]
        ⟨PlaybackState.connecting, 0⟩
      = ⟨PlaybackState.connecting, 1⟩ ∧
    PlaybackState.isError PlaybackState.connecting = false := by decide

/-- C3 amended: when an attempt fails (with `auto_reconnect` read as
enabled and the counter below the ceiling, else the attempt never runs),
the counter is incremented; if the incremented counter reaches
`MAX_RETRY_ATTEMPTS` the state becomes `Error("Max retry attempts
reached: ..")` and no further attempt is made; otherwise the controller
waits the fixed delay and continues with the rest of the run — and if
`auto_reconnect` is read as disabled at a loop top, the loop stops without
touching the playback state (no `Error` transition). -/
theorem retry_amended (e : String) (rest : List (Bool × AttemptResult))
    (st : RetryState) (hlt : st.reconnect_attempts < MAX_RETRY_ATTEMPTS) :
    (MAX_RETRY_ATTEMPTS ≤ st.reconnect_attempts + 1 →
      stream_with_retry ((true, AttemptResult.failure e) :: rest) st =
        ⟨PlaybackState.error (("Max retry attempts reached: ") ++ e),
         st.reconnect_attempts + 1⟩) ∧
    (st.reconnect_attempts + 1 < MAX_RETRY_ATTEMPTS →
      stream_with_retry ((true, AttemptResult.failure e) :: rest) st =
        stream_with_retry rest ⟨st.playback_state, st.reconnect_attempts + 1⟩) ∧
    (∀ (outcome : AttemptResult) (rest2 : List (Bool × AttemptResult)),
      stream_with_retry ((false, outcome) :: rest2) st = st) := by
  refine ⟨?_, ?_, ?_⟩
  · intro h
    rw [stream_with_retry_cons]
    rw [if_pos ⟨rfl, hlt⟩]
    simp [h]
  · intro h
    rw [stream_with_retry_cons]
    rw [if_pos ⟨rfl, hlt⟩]
    simp [Nat.not_le.mpr h]
  · intro outcome rest2
    rw [stream_with_retry_cons]
    simp

/-- C3 witness: a fifth consecutive failure lands in the terminal `Error`
state with the counter at the ceiling. -/
theorem retry_amended_witness :
    (⟨PlaybackState.connecting, 4⟩ : RetryState).reconnect_attempts
      < MAX_RETRY_ATTEMPTS ∧
    stream_with_retry [(true, AttemptResult.failure ("x"))]
        ⟨PlaybackState.connecting, 4⟩
      = ⟨PlaybackState.error (("Max retry attempts reached: x")), 5⟩ :=
  ⟨by decide,
   (retry_amended ("x") [] ⟨PlaybackState.connecting, 4⟩ (by decide)).1 (by decide)⟩

/-- C5 counterexample: with the state mutex unavailable, `pause` and `stop`
do not silently succeed — they return the error
`"Failed to acquire state lock"`, contradicting "the operation is silently
skipped, returning successfully". -/
theorem lock_failure_counterexample :
    pause false PlayerState.new = Res.error ("Failed to acquire state lock") ∧
    stop false PlayerState.new = Res.error ("Failed to acquire state lock") := by
  exact ⟨rfl, rfl⟩

/-- C5 amended: when the state mutex is unavailable, only
`set_auto_reconnect` is silently skipped (state unchanged, no error);
`pause`, `resume`, `stop` and `play` instead return the error
`"Failed to acquire state lock"` (and leave the state unmodified, as the
failed lock gives no access to it). -/
theorem lock_failure_amended (s : PlayerState) (enabled : Bool) (url : String) :
    set_auto_reconnect false enabled s = s ∧
    pause false s = Res.error ("Failed to acquire state lock") ∧
    resume false s = Res.error ("Failed to acquire state lock") ∧
    stop false s = Res.error ("Failed to acquire state lock") ∧
    play false url s = Res.error ("Failed to acquire state lock") :=
  ⟨rfl, rfl, rfl, rfl, rfl⟩

/-- C9 counterexample: (i) for the `.pls` body whose `File1=` URL itself
contains `=`, resolution returns the URL truncated at the second `=`
(`split('=').nth(1)`), not the URL on the `File` line; (ii) a `.pls` URL
containing `/live` is returned as-is without the playlist ever being
parsed, so resolution does not return the `File1=` URL either. -/
theorem resolve_pls_counterexample :
    resolve_stream_url (("http://x/stream.pls")).data
        (("[playlist]\nFile1=http://x/live.mp3?a=b\n")).data
      = Res.ok (("http://x/live.mp3?a").data) ∧
    specFirstFileUrl (rustLines (("[playlist]\nFile1=http://x/live.mp3?a=b\n")).data)
      = some (("http://x/live.mp3?a=b").data) ∧
    ("http://x/live.mp3?a").data ≠ ("http://x/live.mp3?a=b").data ∧
    resolve_stream_url (("http://x/live/s.pls")).data
        (("[playlist]\nFile1=http://y/s.mp3\n")).data
      = Res.ok (("http://x/live/s.pls").data) ∧
    ("http://x/live/s.pls").data ≠ ("http://y/s.mp3").data := by decide

/-- C9 amended: for every URL ending in `.pls` (and not ending in
`.mp3`/`.aac` nor containing `/live`, which would short-circuit
resolution), resolution parses the fetched body with the `.pls` rule: if a
line starting with `File` and containing `=` exists, the trimmed segment
between its first and second `=` is returned (the full URL whenever the URL
contains no `=`, as in the spec's example); if no such line exists,
resolution fails and the session falls back to the original URL. -/
theorem resolve_pls_amended (url content : List Char)
    (hpls : endsWithChars url ((".pls").data) = true)
    (hmp3 : endsWithChars url ((".mp3").data) = false)
    (haac : endsWithChars url ((".aac").data) = false)
    (hlive : containsSubstring url (("/live").data) = false) :
    (∀ u, plsFirstFile (rustLines content) = some u →
      resolve_stream_url url content = Res.ok u ∧
      resolve_with_fallback url content = u) ∧
    (plsFirstFile (rustLines content) = none →
      resolve_stream_url url content = Res.error ("No stream URL found in playlist") ∧
      resolve_with_fallback url content = url) := by
  have hm := pls_not_m3u hpls
  have hres : resolve_stream_url url content = parse_playlist url content := by
    unfold resolve_stream_url
    rw [hmp3, haac, hlive, hpls]
    simp
  constructor
  · intro u hu
    have hp : parse_playlist url content = Res.ok u := by
      unfold parse_playlist
      rw [hpls]
      simp [hu]
    refine ⟨hres.trans hp, ?_⟩
    unfold resolve_with_fallback
    rw [hres, hp]
  · intro hu
    have hp : parse_playlist url content
        = Res.error ("No stream URL found in playlist") := by
      unfold parse_playlist
      rw [hpls, hm.1, hm.2]
      simp [hu]
    refine ⟨hres.trans hp, ?_⟩
    unfold resolve_with_fallback
    rw [hres, hp]

/-- C9 witness: the spec's end-to-end example — the playlist body
`"[playlist]\nFile1=http://x/live.mp3\n"` fetched for
`"http://x/stream.pls"` resolves to `"http://x/live.mp3"`. -/
theorem resolve_pls_amended_witness :
    plsFirstFile (rustLines (("[playlist]\nFile1=http://x/live.mp3\n")).data)
      = some (("http://x/live.mp3").data) ∧
    resolve_stream_url (("http://x/stream.pls")).data
        (("[playlist]\nFile1=http://x/live.mp3\n")).data
      = Res.ok (("http://x/live.mp3").data) ∧
    resolve_with_fallback (("http://x/stream.pls")).data
        (("[playlist]\nFile1=http://x/live.mp3\n")).data
      = ("http://x/live.mp3").data := by
  refine ⟨by decide, ?_, ?_⟩
  · exact ((resolve_pls_amended (("http://x/stream.pls")).data
      (("[playlist]\nFile1=http://x/live.mp3\n")).data
      (by decide) (by decide) (by decide) (by decide)).1
      (("http://x/live.mp3").data) (by decide)).1
  · exact ((resolve_pls_amended (("http://x/stream.pls")).data
      (("[playlist]\nFile1=http://x/live.mp3\n")).data
      (by decide) (by decide) (by decide) (by decide)).1
      (("http://x/live.mp3").data) (by decide)).2

/-- C10: `stop` (with the lock acquired, as its error path shows it is
otherwise skipped) is idempotent: from any state it yields a state with
`playback_state = Stopped`, no URL, no sink, no cancellation token and a
zeroed attempt counter, and a second `stop` returns exactly that state
again. -/
theorem stop_idempotent (s : PlayerState) :
    ∃ s1, stop true s = Res.ok s1 ∧
      s1.playback_state = PlaybackState.stopped ∧
      s1.current_url = none ∧
      s1.sink = false ∧
      s1.cancellation_token = false ∧
      s1.reconnect_attempts = 0 ∧
      stop true s1 = Res.ok s1 :=
  ⟨_, rfl, rfl, rfl, rfl, rfl, rfl, rfl⟩

end SomaFM
